import Mathlib

/-!
Verification of the fivetran-custom-connector repository: a shallow
embedding of the two Search Ads 360 connector drivers
(src/sa360-custom-columns/connector.py and
src/sa360-custom-keywords/connector.py) and of the shared API module
(src/sa360-custom-keywords/search_ads_360.py), with theorems settling the
specification claims about checkpointing, retry/backoff, pagination and
row normalization.

Conventions of the embedding:
  - Python date strings "YYYY-MM-DD" are embedded as the `Date` structure;
    get_date_diff works on these (strptime on a valid date string is a
    bijection onto such triples).
  - A Python value that may be None is an `Option`.
  - A Python exception is the `err` constructor of `PyResult`; code that
    cannot raise returns plain values.
  - The stream of values yielded by the update generators is a `List Op`.
  - External I/O (the HTTP responses the API returns) is passed in as
    explicit data: a script of responses for make_sa360_request, an `Env`
    of per-account API answers for the drivers.
-/

/-- A calendar date, the embedding of a "YYYY-MM-DD" date string. -/
structure Date where
  y : Nat
  m : Nat
  d : Nat
deriving DecidableEq, Repr

/-- Days since the civil epoch used to subtract dates
(standard days-from-civil calculation, valid for years from 1 on). -/
def Date.toDays (dt : Date) : Nat :=
  let yy := if dt.m ≤ 2 then dt.y - 1 else dt.y
  let era := yy / 400
  let yoe := yy % 400
  let mp := (dt.m + 9) % 12
  let doy := (153 * mp + 2) / 5 + dt.d - 1
  let doe := yoe * 365 + yoe / 4 - yoe / 100 + doy
  era * 146097 + doe

/-- Embedding of get_date_diff from both connector.py files:
strptime both dates and return the signed day difference (d2 - d1).days. -/
def get_date_diff (d1 d2 : Date) : Int :=
  (d2.toDays : Int) - (d1.toDays : Int)

/-- The Python exceptions the embedded code can raise. -/
inductive PyErr where
  | typeError
  | valueError
  | indexError
deriving DecidableEq, Repr

/-- Result of running embedded Python code that may raise. -/
inductive PyResult (α : Type) where
  | ok (a : α)
  | err (e : PyErr)
deriving DecidableEq, Repr

/-- Value of a nonempty all-digit character list, none otherwise. -/
def digitsVal : List Char → Nat → Option Nat
  | [], acc => some acc
  | c :: cs, acc =>
    if c.isDigit then digitsVal cs (acc * 10 + (c.toNat - '0'.toNat)) else none

/-- Embedding of the Python builtin int() as used on account ids:
int(None) raises TypeError, int applied to an empty or non-numeric string
raises ValueError, otherwise the parsed value is returned. -/
def pyInt : Option String → PyResult Int
  | none => .err .typeError
  | some s =>
    if s.data.isEmpty then .err .valueError
    else
      match digitsVal s.data 0 with
      | some n => .ok (n : Int)
      | none => .err .valueError

/-- Embedding of the Python str.split(",") used on the configured
sub-manager id list: cut the character sequence at every comma (an empty
string splits to a single empty field, like in Python). -/
def splitCommaAux : List Char → List Char → List String
  | [], acc => [String.mk acc.reverse]
  | c :: cs, acc =>
    if c = ',' then String.mk acc.reverse :: splitCommaAux cs []
    else splitCommaAux cs (c :: acc)

/-- str.split(",") on a whole string. -/
def pySplitComma (s : String) : List String :=
  splitCommaAux s.data []

/-- Embedding of str.strip(): drop ASCII whitespace from both ends. -/
def pyStrip (s : String) : String :=
  String.mk (((s.data.dropWhile Char.isWhitespace).reverse.dropWhile
    Char.isWhitespace).reverse)

/-- Apply a fallible function to every element, left to right, stopping at
the first exception (the order CPython computes sort keys in). -/
def mapPy (f : α → PyResult β) : List α → PyResult (List β)
  | [] => .ok []
  | x :: xs =>
    match f x with
    | .err e => .err e
    | .ok y =>
      match mapPy f xs with
      | .err e => .err e
      | .ok ys => .ok (y :: ys)

/-- Insert a keyed element into an already sorted keyed list, before the
first element with a key that is not smaller (stable insertion). -/
def insertByKey (p : Int × α) : List (Int × α) → List (Int × α)
  | [] => [p]
  | q :: qs => if p.1 ≤ q.1 then p :: q :: qs else q :: insertByKey p qs

/-- Stable insertion sort on keyed elements. -/
def sortPairs : List (Int × α) → List (Int × α)
  | [] => []
  | p :: ps => insertByKey p (sortPairs ps)

/-- Embedding of list.sort(key=lambda x: int(x)) on a list that may contain
None entries: compute every key (raising like int() does), then sort the
elements by key, stably. -/
def pySortByInt (xs : List (Option String)) : PyResult (List (Option String)) :=
  match mapPy pyInt xs with
  | .err e => .err e
  | .ok ks => .ok ((sortPairs (ks.zip xs)).map (fun p => p.2))

/-- Embedding of list.sort(key=lambda x: int(x)) on a list of strings. -/
def pySortStrByInt (xs : List String) : PyResult (List String) :=
  match mapPy (fun s => pyInt (some s)) xs with
  | .err e => .err e
  | .ok ks => .ok ((sortPairs (ks.zip xs)).map (fun p => p.2))

/-- One entry of the customColumnHeaders array of a result page. -/
structure Header where
  id : String
deriving DecidableEq, Repr

/-- One entry of the customColumns array embedded in a result row; the
doubleValue key may be absent (sparse metric), and its numeric payload is
carried opaquely as a string since the code never computes with it. -/
structure CustomColumnValue where
  doubleValue : Option String := none
deriving DecidableEq, Repr

/-- One result row of a search response page, holding the nested fields the
code reads. Fields read with .get and a default are Options; fields read
with hard indexing are plain. -/
structure ResultRow where
  campaignId : String
  campaignName : String := ""
  clicks : Option String := none
  impressions : Option String := none
  costMicros : Option String := none
  keywordText : Option String := none
  keywordMatchType : Option String := none
  accountName : String := ""
  currencyCode : String := ""
  date : Date
  customColumns : List CustomColumnValue := []
deriving DecidableEq, Repr

/-- One page of a search response. -/
structure ApiPage where
  results : List ResultRow := []
  customColumnHeaders : List Header := []
  nextPageToken : Option String := none
deriving DecidableEq, Repr

/-- One custom column definition as returned by the customColumns
endpoint; description is read with .get and a default. -/
structure ColumnDef where
  id : String
  name : String := ""
  renderType : String := ""
  valueType : String := ""
  description : Option String := none
deriving DecidableEq, Repr

/-- Data dict upserted into the custom_columns table. -/
structure ColumnDefRow where
  customer_id : Option String
  column_id : String
  description : String
  name : String
  render_type : String
  value_type : String
deriving DecidableEq, Repr

/-- Data dict upserted into the custom_column_values table. -/
structure ColumnValueRow where
  column_id : String
  value : Option String
  date : Date
  campaign_id : String
  customer_id : Option String
deriving DecidableEq, Repr

/-- Data dict upserted into the custom_column_metrics table. -/
structure MetricRow where
  column_id : String
  value : Option String
  date : Date
  campaign_id : String
  customer_id : Option String
  keyword_text : String
  keyword_match_type : String
  campaign_name : String
  account_name : String
  currency_code : String
  clicks : String
  impressions : String
  cost : String
deriving DecidableEq, Repr

/-- The state dict passed to op.checkpoint; a none field is an absent key
(or a key set to None, which the host round-trips the same way). -/
structure CkState where
  submanager_cursor : Option String := none
  managed_account_cursor : Option String := none
  iterative_sync_cursor : Option Date := none
  column_data_cursor : Option Date := none
deriving DecidableEq, Repr

/-- Payload of an op.upsert, tagged by the shape of the data dict. -/
inductive RowData where
  | columnDef (r : ColumnDefRow)
  | columnValue (r : ColumnValueRow)
  | metric (r : MetricRow)
deriving DecidableEq, Repr

/-- One operation yielded by an update generator. -/
inductive Op where
  | checkpoint (st : CkState)
  | upsert (table : String) (data : RowData)
deriving DecidableEq, Repr

/-- The persisted state dict read at the start of update. -/
structure StateDict where
  submanager_cursor : Option String := none
  managed_account_cursor : Option String := none
  iterative_sync_cursor : Option Date := none
  column_data_cursor : Option Date := none
deriving DecidableEq, Repr

/-- The external API as the drivers observe it: the custom column
definitions for a sub-manager, the customer-client ids for a sub-manager,
and the sequence of pages the paginator yields for a customer, a
column-field expression and a start date. The token mechanics that produce
that page sequence are embedded separately (searchPages below). -/
structure Env where
  customColumns : String → List ColumnDef
  customerClients : String → List String
  columnData : Option String → String → Option Date → List ApiPage

/-- An Env answering every request with nothing. -/
def envEmpty : Env where
  customColumns := fun _ => []
  customerClients := fun _ => []
  columnData := fun _ _ _ => []

namespace SA360

/-- An HTTP response as make_sa360_request observes it: the status code and
whether the body parses as JSON (response.json() raises when it does not). -/
structure Response where
  status : Nat
  bodyIsJson : Bool := true
deriving DecidableEq, Repr

/-- How a call to make_sa360_request ends: the function returns a response
(it does so even for error statuses, because the bare except around
raise_for_status swallows the HTTPError), or response.json() inside that
except block raises, or the response script of the model ran out. -/
inductive ReqOutcome where
  | returned (r : Response)
  | jsonError
  | exhausted
deriving DecidableEq, Repr

/-- Observable trace of one make_sa360_request call: the backoff sleeps
performed in order, the number of get_access_token refresh calls, and the
outcome. -/
structure ReqTrace where
  sleeps : List Nat
  refreshes : Nat
  outcome : ReqOutcome
deriving DecidableEq, Repr

/-- The while True loop of make_sa360_request. The input list scripts what
session.request returns on each successive attempt; auth_retried and
rate_limit_retries are the loop variables of the source (initially false
and 5). On 401 with auth not yet retried: refresh the token and retry; on
429 with retries left: sleep 2 ^ (attempt - 1) with attempt = 6 -
rate_limit_retries, decrement, retry; otherwise raise_for_status inside
try/bare-except (which prints response.json()) and return the response. -/
def requestLoop : List Response → Bool → Nat → ReqTrace
  | [], _, _ => { sleeps := [], refreshes := 0, outcome := .exhausted }
  | r :: rest, auth_retried, rate_limit_retries =>
    if r.status == 401 && !auth_retried then
      let t := requestLoop rest true rate_limit_retries
      { t with refreshes := t.refreshes + 1 }
    else if r.status == 429 && decide (0 < rate_limit_retries) then
      let attempt := 6 - rate_limit_retries
      let delay := 2 ^ (attempt - 1)
      let t := requestLoop rest auth_retried (rate_limit_retries - 1)
      { t with sleeps := delay :: t.sleeps }
    else if 400 ≤ r.status then
      if r.bodyIsJson then { sleeps := [], refreshes := 0, outcome := .returned r }
      else { sleeps := [], refreshes := 0, outcome := .jsonError }
    else { sleeps := [], refreshes := 0, outcome := .returned r }

/-- Embedding of make_sa360_request: run the loop with auth_retried =
False and rate_limit_retries = 5. -/
def make_sa360_request (responses : List Response) : ReqTrace :=
  requestLoop responses false 5

/-- The list of backoff delays still available when rate_limit_retries =
k; for k = 5 this is [1, 2, 4, 8, 16]. -/
def backoffs : Nat → List Nat
  | 0 => []
  | k + 1 => 2 ^ (5 - (k + 1)) :: backoffs k

/-- Embedding of get_customer_clients: the input is the list of
customerClient ids extracted from the response results; when it is empty
the function returns [None], otherwise the ids themselves. -/
def get_customer_clients (results : List String) : List (Option String) :=
  let res := results.map some
  if res.length = 0 then [none] else res

/-- One POST to the search endpoint as the page loop issues it: the fixed
pageSize of the payload and the pageToken key (absent on the first
request). -/
structure SearchRequest where
  pageSize : Nat
  pageToken : Option String
deriving DecidableEq, Repr

/-- The search endpoint as the page loop observes it: the page answered to
the token-less first request, and the page answered to each page token. -/
structure PageServer where
  first : ApiPage
  next : String → ApiPage

/-- The falsy test of the source (if not next_page_token: break): an
absent token or an empty-string token ends the loop. -/
def tokenDone : Option String → Bool
  | none => true
  | some s => s.data.isEmpty

/-- The page the server answers to the current token (the first request
carries no pageToken). -/
def srvPage (srv : PageServer) : Option String → ApiPage
  | none => srv.first
  | some t => srv.next t

/-- The while True loop of get_custom_column_data: request the page for
the current token, yield it, then follow nextPageToken, stopping when it
is falsy. The fuel argument is a model artifact bounding the number of
requests; the source loop runs until the API stops returning tokens. -/
def searchPages (srv : PageServer) : Nat → Option String → List (SearchRequest × ApiPage)
  | 0, _ => []
  | fuel + 1, tok =>
    ({ pageSize := 5000, pageToken := tok }, srvPage srv tok) ::
      (match (srvPage srv tok).nextPageToken with
       | none => []
       | some t => if t.data.isEmpty then [] else searchPages srv fuel (some t))

/-- Embedding of get_custom_column_data: run the page loop starting with
no page token. -/
def get_custom_column_data (srv : PageServer) (fuel : Nat) :
    List (SearchRequest × ApiPage) :=
  searchPages srv fuel none

/-- A page token encoding the index of the page it requests. -/
def idxToken (i : Nat) : String :=
  String.mk (List.replicate i 'x')

/-- Page number i of a server that splits the chunk list chunks into one
page per chunk, each page carrying the token of its successor and the last
page carrying none. -/
def pageAt (chunks : List (List ResultRow)) (hs : List Header) (i : Nat) : ApiPage :=
  { results := chunks.getD i [],
    customColumnHeaders := hs,
    nextPageToken := if i + 1 < chunks.length then some (idxToken (i + 1)) else none }

/-- The server that paginates chunks, one page per chunk. -/
def chunkServer (chunks : List (List ResultRow)) (hs : List Header) : PageServer where
  first := pageAt chunks hs 0
  next := fun t => pageAt chunks hs t.length

/-- The data dict generate_custom_column_rows builds for one custom column
value of one result row; missing metric fields default to "0", missing
keyword fields to the empty string, a missing doubleValue stays None. -/
def metricOf (customer_id : Option String) (record : ResultRow)
    (p : CustomColumnValue × Header) : MetricRow where
  column_id := p.2.id
  value := p.1.doubleValue
  date := record.date
  campaign_id := record.campaignId
  customer_id := customer_id
  keyword_text := record.keywordText.getD ""
  keyword_match_type := record.keywordMatchType.getD ""
  campaign_name := record.campaignName
  account_name := record.accountName
  currency_code := record.currencyCode
  clicks := record.clicks.getD "0"
  impressions := record.impressions.getD "0"
  cost := record.costMicros.getD "0"

/-- The inner loop of generate_custom_column_rows over one result row: zip
the customColumns of the row against the customColumnHeaders of the page
by position and build one data dict per pair. -/
def rowRecords (customer_id : Option String) (headers : List Header)
    (record : ResultRow) : List MetricRow :=
  (record.customColumns.zip headers).map (metricOf customer_id record)

/-- The loop of generate_custom_column_rows over one page: every result
row of the page, zipped against the headers of that page. -/
def pageRecords (customer_id : Option String) (page : ApiPage) : List MetricRow :=
  (page.results.map (rowRecords customer_id page.customColumnHeaders)).flatten

/-- Embedding of generate_custom_column_rows: every page the paginator
yields for this customer, flattened into per-column data dicts. The page
sequence is taken from the Env (the token mechanics are searchPages). -/
def generate_custom_column_rows (env : Env) (customer_id : Option String)
    (custom_columns : String) (date_cursor : Option Date) : List MetricRow :=
  ((env.columnData customer_id custom_columns date_cursor).map
    (pageRecords customer_id)).flatten

end SA360

/-- Run a loop body that yields operations and threads a loop variable,
stopping at the first exception but keeping the operations yielded before
it (an exception aborts the generator, not the values already yielded). -/
def runSubs (f : σ → α → List Op × PyResult σ) : σ → List α → List Op × PyResult σ
  | s, [] => ([], .ok s)
  | s, x :: xs =>
    match f s x with
    | (ops, .ok s') =>
      let (ops2, r) := runSubs f s' xs
      (ops ++ ops2, r)
    | (ops, .err e) => (ops, .err e)

/-- Run a loop body over the managed accounts of one sub-manager,
collecting yielded operations and stopping at the first exception. -/
def foldAcct (f : α → List Op × Option PyErr) : List α → List Op × Option PyErr
  | [] => ([], none)
  | x :: xs =>
    match f x with
    | (ops, none) =>
      let (ops2, e) := foldAcct f xs
      (ops ++ ops2, e)
    | (ops, some e) => (ops, some e)

namespace KeywordsConn

/-- The configuration keys the keywords update reads. -/
structure Config where
  submanager_account_ids : String
deriving DecidableEq, Repr

/-- The managed-account list of one sub-manager in the keywords connector:
the customer clients of the sub-manager with every id that is itself a
configured sub-manager filtered out (z not in submanager_accounts; a None
entry is never in a list of strings, so it survives the filter). -/
def managedAccountsOf (subs : List String) (env : Env) (account : String) :
    List (Option String) :=
  (SA360.get_customer_clients (env.customerClients account)).filter
    (fun z => match z with
      | none => true
      | some s => !subs.contains s)

/-- The enumerate loop over the rows the generator yields: at every index
that is a positive multiple of 50000 a checkpoint carrying the date of the
row about to be emitted is yielded first; every row is upserted. -/
def emitLoop (account : String) (a : Option String) (isc : Option Date) :
    Nat → List MetricRow → List Op
  | _, [] => []
  | idx, item :: rest =>
    (if idx % 50000 == 0 && idx != 0 then
      [Op.checkpoint
        { submanager_cursor := some account,
          managed_account_cursor := a,
          iterative_sync_cursor := isc,
          column_data_cursor := some item.date }]
     else []) ++
    (Op.upsert "custom_column_metrics" (.metric item) ::
      emitLoop account a isc (idx + 1) rest)

/-- Body of the managed-account loop of the keywords update: skip when
int(a) < int(managed_account_cursor); when there are custom columns, build
the column-field expression, pick the start date (iterative_sync_cursor if
set, else column_data_cursor) and emit every generated row through the
enumerate loop. -/
def acctBody (env : Env) (cdc isc : Option Date) (account : String)
    (columns : List ColumnDef) (mac : Option String) (a : Option String) :
    List Op × Option PyErr :=
  match pyInt a with
  | .err e => ([], some e)
  | .ok ai =>
    match pyInt mac with
    | .err e => ([], some e)
    | .ok mi =>
      if ai < mi then ([], none)
      else if 0 < columns.length then
        let column_fields := String.intercalate ","
          (columns.map (fun i => "custom_columns.id[" ++ i.id ++ "]"))
        let start_date := match isc with
          | none => cdc
          | some _ => isc
        (emitLoop account a isc 0
          (SA360.generate_custom_column_rows env a column_fields start_date),
         none)
      else ([], none)

/-- Body of the sub-manager loop of the keywords update: skip (yielding
nothing) when int(account) < int(submanager_cursor); otherwise fetch the
columns and the filtered managed accounts, sort them numerically,
re-read managed_account_cursor from the persisted state (defaulting to the
first sorted id), and run the managed-account loop. The threaded loop
variable is the managed_account_cursor variable of the source. -/
def subStep (state : StateDict) (env : Env) (subs : List String)
    (cdc isc : Option Date) (subCursor : String)
    (mac : Option String) (account : String) :
    List Op × PyResult (Option String) :=
  match pyInt (some account) with
  | .err e => ([], .err e)
  | .ok ai =>
    match pyInt (some subCursor) with
    | .err e => ([], .err e)
    | .ok ci =>
      if ai < ci then ([], .ok mac)
      else
        let columns := env.customColumns account
        match pySortByInt (managedAccountsOf subs env account) with
        | .err e => ([], .err e)
        | .ok managed_accounts =>
          match managed_accounts with
          | [] => ([], .err .indexError)
          | m0 :: _ =>
            let mac' : Option String := match state.managed_account_cursor with
              | some s => some s
              | none => m0
            match foldAcct (acctBody env cdc isc account columns mac') managed_accounts with
            | (ops, none) => (ops, .ok mac')
            | (ops, some e) => (ops, .err e)

/-- Embedding of update from src/sa360-custom-keywords/connector.py. The
Env scripts the API answers; today is the date datetime.now() returns at
the terminal checkpoint. The result is the list of yielded operations plus
the exception that aborted the generator, if any. -/
def update (configuration : Config) (state : StateDict) (env : Env) (today : Date) :
    List Op × Option PyErr :=
  let column_data_cursor := state.column_data_cursor
  let iterative_sync_cursor := state.iterative_sync_cursor
  let submanager_accounts :=
    (pySplitComma configuration.submanager_account_ids).map pyStrip
  match pySortStrByInt submanager_accounts with
  | .err e => ([], some e)
  | .ok subs =>
    match subs with
    | [] => ([], some .indexError)
    | s0 :: _ =>
      let submanager_cursor := state.submanager_cursor.getD s0
      match runSubs
          (subStep state env subs column_data_cursor iterative_sync_cursor
            submanager_cursor)
          state.managed_account_cursor subs with
      | (ops, .ok _) =>
        (ops ++ [Op.checkpoint { iterative_sync_cursor := some today }], none)
      | (ops, .err e) => (ops, some e)

end KeywordsConn

namespace ColumnsConn

/-- The managed-account list of one sub-manager in the columns connector:
the raw customer-client list, with no filtering of sub-manager ids. -/
def managedAccountsOf (env : Env) (account : String) : List (Option String) :=
  SA360.get_customer_clients (env.customerClients account)

/-- The checkpoint the columns update yields on entering an iteration of
the sub-manager loop, before the skip test: when the
managed_account_cursor variable is None the key is omitted, otherwise it
is carried. -/
def entryCheckpoint (cdc isc : Option Date) (mac : Option String)
    (account : String) : Op :=
  match mac with
  | none =>
    Op.checkpoint
      { submanager_cursor := some account,
        iterative_sync_cursor := isc,
        column_data_cursor := cdc }
  | some m =>
    Op.checkpoint
      { submanager_cursor := some account,
        managed_account_cursor := some m,
        iterative_sync_cursor := isc,
        column_data_cursor := cdc }

/-- The checkpoint the columns update yields on entering an iteration of
the managed-account loop, before the skip test. -/
def positionCheckpoint (cdc isc : Option Date) (account : String)
    (a : Option String) : Op :=
  Op.checkpoint
    { submanager_cursor := some account,
      managed_account_cursor := a,
      iterative_sync_cursor := isc,
      column_data_cursor := cdc }

/-- The upserts one result row produces into custom_column_values: the
customColumns of the row zipped positionally against the page headers. -/
def valueUpserts (a : Option String) (headers : List Header)
    (i : ResultRow) : List Op :=
  (i.customColumns.zip headers).map (fun p =>
    Op.upsert "custom_column_values" (.columnValue
      { column_id := p.2.id,
        value := p.1.doubleValue,
        date := i.date,
        campaign_id := i.campaignId,
        customer_id := a }))

/-- The date-frontier loop of the columns update over the result rows of
the first page (lines 146-184 of the source): the first row establishes
the frontier (_start_date) and yields a checkpoint carrying its date; a
row dated before the frontier is skipped entirely; a row dated more than 5
days after the frontier advances it and yields a fresh checkpoint; every
non-skipped row then yields its value upserts. -/
def processResults (account : String) (a : Option String) (isc : Option Date)
    (headers : List Header) : Option Date → List ResultRow → List Op
  | _, [] => []
  | frontier, i :: rest =>
    match frontier with
    | none =>
      Op.checkpoint
        { submanager_cursor := some account,
          managed_account_cursor := a,
          iterative_sync_cursor := isc,
          column_data_cursor := some i.date } ::
      valueUpserts a headers i ++
      processResults account a isc headers (some i.date) rest
    | some f =>
      if get_date_diff f i.date < 0 then
        processResults account a isc headers (some f) rest
      else if 5 < get_date_diff f i.date then
        Op.checkpoint
          { submanager_cursor := some account,
            managed_account_cursor := a,
            iterative_sync_cursor := isc,
            column_data_cursor := some i.date } ::
        valueUpserts a headers i ++
        processResults account a isc headers (some i.date) rest
      else
        valueUpserts a headers i ++
        processResults account a isc headers (some f) rest

/-- Body of the managed-account loop of the columns update: yield the
position checkpoint first, then skip when int(a) <
int(managed_account_cursor); otherwise upsert every column definition and,
when columns exist, fetch the column data and run the frontier loop over
the results of the first fetched page only (column_data[0]). -/
def acctStep (env : Env) (cdc isc : Option Date) (account : String)
    (columns : List ColumnDef) (mac : Option String) (a : Option String) :
    List Op × Option PyErr :=
  let ck := positionCheckpoint cdc isc account a
  match pyInt a with
  | .err e => ([ck], some e)
  | .ok ai =>
    match pyInt mac with
    | .err e => ([ck], some e)
    | .ok mi =>
      if ai < mi then ([ck], none)
      else
        let colOps := columns.map (fun column =>
          Op.upsert "custom_columns" (.columnDef
            { customer_id := a,
              column_id := column.id,
              description := column.description.getD "",
              name := column.name,
              render_type := column.renderType,
              value_type := column.valueType }))
        let dataOps :=
          if 0 < columns.length then
            let column_fields := String.intercalate ","
              (columns.map (fun i => "custom_columns.id[" ++ i.id ++ "]"))
            let start_date := match isc with
              | none => cdc
              | some _ => isc
            match env.columnData a column_fields start_date with
            | [] => []
            | page0 :: _ =>
              processResults account a isc page0.customColumnHeaders none
                page0.results
          else []
        (ck :: colOps ++ dataOps, none)

/-- Body of the sub-manager loop of the columns update: yield the entry
checkpoint first (even for a sub-manager about to be skipped), then skip
when int(account) < int(submanager_cursor); otherwise fetch columns and
the unfiltered customer clients, sort them numerically (raising on a None
entry), re-read managed_account_cursor from the persisted state
(defaulting to the first sorted id) and run the managed-account loop. -/
def subStep (state : StateDict) (env : Env) (cdc isc : Option Date)
    (subCursor : String) (mac : Option String) (account : String) :
    List Op × PyResult (Option String) :=
  let ck := entryCheckpoint cdc isc mac account
  match pyInt (some account) with
  | .err e => ([ck], .err e)
  | .ok ai =>
    match pyInt (some subCursor) with
    | .err e => ([ck], .err e)
    | .ok ci =>
      if ai < ci then ([ck], .ok mac)
      else
        let columns := env.customColumns account
        match pySortByInt (managedAccountsOf env account) with
        | .err e => ([ck], .err e)
        | .ok managed_accounts =>
          match managed_accounts with
          | [] => ([ck], .err .indexError)
          | m0 :: _ =>
            let mac' : Option String := match state.managed_account_cursor with
              | some s => some s
              | none => m0
            match foldAcct (acctStep env cdc isc account columns mac') managed_accounts with
            | (ops, none) => (ck :: ops, .ok mac')
            | (ops, some e) => (ck :: ops, .err e)

/-- Embedding of update from src/sa360-custom-columns/connector.py. The
sub-manager ids are the hardcoded literal of the source. Modelled from the
spec: the search_ads_360 module of this connector is not in the
repository; per the spec its paginator produces a finite sequence of
result pages, embedded as the page list the Env supplies (which the driver
indexes with len() and [0]), and its get_customer_clients behaves as the
sibling module in src/sa360-custom-keywords does, matching the spec note
about the [None] sentinel. -/
def update (state : StateDict) (env : Env) (today : Date) :
    List Op × Option PyErr :=
  let column_data_cursor := state.column_data_cursor
  let iterative_sync_cursor := state.iterative_sync_cursor
  match pySortStrByInt ["1115771062", "9134099894"] with
  | .err e => ([], some e)
  | .ok subs =>
    match subs with
    | [] => ([], some .indexError)
    | s0 :: _ =>
      let submanager_cursor := state.submanager_cursor.getD s0
      match runSubs
          (subStep state env column_data_cursor iterative_sync_cursor
            submanager_cursor)
          state.managed_account_cursor subs with
      | (ops, .ok _) =>
        (ops ++ [Op.checkpoint { iterative_sync_cursor := some today }], none)
      | (ops, .err e) => (ops, some e)

end ColumnsConn

/-- The customer_id of a custom_column_metrics upsert, none for any other
operation (used to state which accounts produced output). -/
def metricCustomer : Op → Option (Option String)
  | .upsert _ (.metric m) => some m.customer_id
  | _ => none

/-- The column_data_cursor carried by a checkpoint operation, none for an
upsert (used to state which dates were checkpointed). -/
def ckColumnDataCursor : Op → Option (Option Date)
  | .checkpoint s => some s.column_data_cursor
  | _ => none

/-- Every non-final page of the request/response sequence hands its
nextPageToken to the request that follows it. -/
def tokensChained : List (SA360.SearchRequest × ApiPage) → Prop
  | [] => True
  | [_] => True
  | p :: q :: rest => q.1.pageToken = p.2.nextPageToken ∧ tokensChained (q :: rest)

/- Concrete fixtures used by the counterexample and witness theorems. -/

/-- State resuming at the second configured sub-manager of the columns
connector. -/
def st1 : StateDict := { submanager_cursor := some "9134099894" }

/-- Env for the C1 counterexample run. -/
def env1 : Env where
  customColumns := fun _ => []
  customerClients := fun s => if s = "9134099894" then ["5"] else []
  columnData := fun _ _ _ => []

/-- A result row dated 2024-01-10 with one custom column value. -/
def rA : ResultRow :=
  { campaignId := "cA", date := ⟨2024, 1, 10⟩,
    customColumns := [{ doubleValue := some "5" }] }

/-- A result row dated 2024-01-05, before the date of rA. -/
def rB : ResultRow :=
  { campaignId := "cB", date := ⟨2024, 1, 5⟩,
    customColumns := [{ doubleValue := some "6" }] }

/-- A page whose rows arrive out of date order. -/
def pg2 : ApiPage := { results := [rA, rB], customColumnHeaders := [⟨"h"⟩] }

/-- Env for the C2 counterexample run: one sub-manager 7 with one managed
account 8 whose data is pg2. -/
def env2 : Env where
  customColumns := fun s => if s = "7" then [{ id := "c1" }] else []
  customerClients := fun s => if s = "7" then ["8"] else []
  columnData := fun a _ _ => if a = some "8" then [pg2] else []

/-- The metrics record generated from rA. -/
def mA : MetricRow :=
  { column_id := "h", value := some "5", date := ⟨2024, 1, 10⟩,
    campaign_id := "cA", customer_id := some "8", keyword_text := "",
    keyword_match_type := "", campaign_name := "", account_name := "",
    currency_code := "", clicks := "0", impressions := "0", cost := "0" }

/-- The metrics record generated from rB. -/
def mB : MetricRow :=
  { column_id := "h", value := some "6", date := ⟨2024, 1, 5⟩,
    campaign_id := "cB", customer_id := some "8", keyword_text := "",
    keyword_match_type := "", campaign_name := "", account_name := "",
    currency_code := "", clicks := "0", impressions := "0", cost := "0" }

/-- State for the C6 run: resuming inside sub-manager 2 at managed account
500. -/
def st6 : StateDict :=
  { submanager_cursor := some "2", managed_account_cursor := some "500" }

/-- Data page of managed account 700 for the C6 run. -/
def pg700 : ApiPage :=
  { results := [{ campaignId := "k7", date := ⟨2025, 2, 2⟩,
                  customColumns := [{ doubleValue := some "7" }] }],
    customColumnHeaders := [⟨"c1"⟩] }

/-- Data page of managed account 100 for the C6 run. -/
def pg100 : ApiPage :=
  { results := [{ campaignId := "k1", date := ⟨2025, 2, 2⟩,
                  customColumns := [{ doubleValue := some "1" }] }],
    customColumnHeaders := [⟨"c1"⟩] }

/-- Env for the C6 run: sub-manager 2 has one managed account 600 and no
columns; the fresh sub-manager 10 has columns and managed accounts 100 and
700. -/
def env6 : Env where
  customColumns := fun s => if s = "10" then [{ id := "c1" }] else []
  customerClients := fun s =>
    if s = "2" then ["600"] else if s = "10" then ["100", "700"] else []
  columnData := fun a _ _ =>
    if a = some "700" then [pg700] else if a = some "100" then [pg100] else []

/-- The metrics record of managed account 700 in the C6 run. -/
def m700 : MetricRow :=
  { column_id := "c1", value := some "7", date := ⟨2025, 2, 2⟩,
    campaign_id := "k7", customer_id := some "700", keyword_text := "",
    keyword_match_type := "", campaign_name := "", account_name := "",
    currency_code := "", clicks := "0", impressions := "0", cost := "0" }

/-- Env for the C7 counterexample: the customer clients of sub-manager
1115771062 include the other configured sub-manager id. -/
def env7 : Env where
  customColumns := fun _ => []
  customerClients := fun s =>
    if s = "1115771062" then ["9134099894", "77"] else ["5"]
  columnData := fun _ _ _ => []

/-- First data page for the C8 counterexample, carrying a next-page
token. -/
def pgX : ApiPage :=
  { results := [{ campaignId := "k1", date := ⟨2025, 2, 3⟩,
                  customColumns := [{ doubleValue := some "1" }] }],
    customColumnHeaders := [⟨"c1"⟩],
    nextPageToken := some "t2" }

/-- Second data page for the C8 counterexample. -/
def pgY : ApiPage :=
  { results := [{ campaignId := "k2", date := ⟨2025, 2, 4⟩,
                  customColumns := [{ doubleValue := some "2" }] }],
    customColumnHeaders := [⟨"c1"⟩] }

/-- Env for the C8 counterexample run: the paginator yields two pages for
managed account 8 of the first sub-manager. -/
def env8 : Env where
  customColumns := fun s => if s = "1115771062" then [{ id := "c1" }] else []
  customerClients := fun s => if s = "1115771062" then ["8"] else ["9"]
  columnData := fun a _ _ => if a = some "8" then [pgX, pgY] else []

/-- The custom_column_values record of the row of pgX. -/
def v1row : ColumnValueRow :=
  { column_id := "c1", value := some "1", date := ⟨2025, 2, 3⟩,
    campaign_id := "k1", customer_id := some "8" }

/-- The custom_column_values record the row of pgY would produce. -/
def v2row : ColumnValueRow :=
  { column_id := "c1", value := some "2", date := ⟨2025, 2, 4⟩,
    campaign_id := "k2", customer_id := some "8" }

/-- A result row with two custom column values, for the C9 mismatch
counterexample. -/
def rowMis : ResultRow :=
  { campaignId := "c", date := ⟨2024, 5, 1⟩,
    customColumns := [{ doubleValue := some "1" }, { doubleValue := some "2" }] }

/-- A page whose single row has two custom column values but only one
header. -/
def pgMis : ApiPage := { results := [rowMis], customColumnHeaders := [⟨"h1"⟩] }

/-- A well-matched page with two rows of two custom column values each,
for the C9 witness. -/
def pgOk : ApiPage :=
  { results :=
      [{ campaignId := "c1", date := ⟨2024, 5, 1⟩,
         customColumns := [{ doubleValue := some "1" }, { doubleValue := some "2" }] },
       { campaignId := "c2", date := ⟨2024, 5, 2⟩,
         customColumns := [{ doubleValue := some "3" }, { doubleValue := none }] }],
    customColumnHeaders := [⟨"h1"⟩, ⟨"h2"⟩] }

/-- Every run of the make_sa360_request loop performs a sequence of sleeps
that is an initial segment of the remaining backoff schedule for its
current retry budget. -/
theorem sleeps_lead_backoffs (rs : List SA360.Response) :
    ∀ (auth : Bool) (k : Nat),
      ∃ t, (SA360.requestLoop rs auth k).sleeps ++ t = SA360.backoffs k := by
  induction rs with
  | nil => intro auth k; exact ⟨SA360.backoffs k, rfl⟩
  | cons r rest ih =>
    intro auth k
    by_cases h1 : (r.status == 401 && !auth) = true
    · simpa [SA360.requestLoop, h1] using ih true k
    · by_cases h2 : (r.status == 429 && decide (0 < k)) = true
      · obtain ⟨k', rfl⟩ : ∃ k', k = k' + 1 := by
          have hk : 0 < k := of_decide_eq_true ((Bool.and_eq_true _ _).mp h2).2
          exact ⟨k - 1, by omega⟩
        obtain ⟨t, ht⟩ := ih auth k'
        refine ⟨t, ?_⟩
        have he : 6 - (k' + 1) - 1 = 5 - (k' + 1) := by omega
        simp only [SA360.requestLoop, h1, h2, Bool.false_eq_true, if_false, if_true,
          Nat.add_sub_cancel]
        simp [SA360.backoffs, he, ht]
        omega
      · by_cases h3 : 400 ≤ r.status
        · by_cases h4 : r.bodyIsJson = true
          · exact ⟨SA360.backoffs k, by simp [SA360.requestLoop, h1, h2, h3, h4]⟩
          · exact ⟨SA360.backoffs k, by simp [SA360.requestLoop, h1, h2, h3, h4]⟩
        · exact ⟨SA360.backoffs k, by simp [SA360.requestLoop, h1, h2, h3]⟩

/-- C5: on consecutive HTTP 429 responses make_sa360_request sleeps
2 ^ (attempt - 1) seconds before each retry, following the schedule 1, 2,
4, 8, 16 for at most 5 retry attempts (every sleep sequence it can perform
is an initial segment of that schedule); in particular three consecutive
429 responses followed by a 200 complete after exactly three sleeps of 1,
2 and 4 seconds. -/
theorem C5_backoff :
    (∀ rs : List SA360.Response, ∃ t,
        (SA360.make_sa360_request rs).sleeps ++ t = [1, 2, 4, 8, 16]) ∧
    SA360.make_sa360_request
        [{ status := 429 }, { status := 429 }, { status := 429 }, { status := 200 }] =
      { sleeps := [1, 2, 4], refreshes := 0,
        outcome := .returned { status := 200 } } := by
  constructor
  · intro rs
    obtain ⟨t, ht⟩ := sleeps_lead_backoffs rs false 5
    exact ⟨t, by rw [SA360.make_sa360_request, ht]; decide⟩
  · decide

/-- C3: contrary to the claim, a non-2xx response that is not locally
recoverable does not make make_sa360_request fail: the bare except around
raise_for_status swallows the HTTPError and the failed response is
returned to the caller as if it had succeeded, both for a 500 and for a
429 that exhausted the five retries. -/
theorem C3_error_swallowed :
    SA360.make_sa360_request [{ status := 500 }] =
      { sleeps := [], refreshes := 0, outcome := .returned { status := 500 } } ∧
    SA360.make_sa360_request (List.replicate 6 { status := 429 }) =
      { sleeps := [1, 2, 4, 8, 16], refreshes := 0,
        outcome := .returned { status := 429 } } := by
  decide

/-- C4: a 401 followed by a 200 performs exactly one token refresh and
returns the 200 response, as the claim says; but a 401 on the retried
request is not fatal: after the single refresh the second 401 response is
returned to the caller (the bare except swallows the HTTPError), not
propagated as an authentication error. -/
theorem C4_auth_retry :
    SA360.make_sa360_request [{ status := 401 }, { status := 200 }] =
      { sleeps := [], refreshes := 1, outcome := .returned { status := 200 } } ∧
    SA360.make_sa360_request [{ status := 401 }, { status := 401 }] =
      { sleeps := [], refreshes := 1, outcome := .returned { status := 401 } } := by
  decide

/-- C10: an account-hierarchy query with zero results makes
get_customer_clients return the one-element list [None]; sorting that list
with key int(x) raises a TypeError; consequently both drivers abort the
run on a sub-manager with no customer clients (the keywords run yields
nothing and stops with the error, the columns run yields only the entry
checkpoint and stops with the error, and neither reaches the terminal
iterative_sync_cursor checkpoint). -/
theorem C10_empty_clients :
    SA360.get_customer_clients [] = [none] ∧
    pySortByInt [none] = .err .typeError ∧
    KeywordsConn.update ⟨"2,10"⟩ {} envEmpty ⟨2025, 1, 1⟩ =
      ([], some .typeError) ∧
    ColumnsConn.update {} envEmpty ⟨2025, 1, 1⟩ =
      ([Op.checkpoint { submanager_cursor := some "1115771062" }],
       some .typeError) := by
  decide

/-- C1 counterexample: with the persisted sub-manager cursor at
9134099894, the columns update yields as its very first operation a
checkpoint positioned at sub-manager 1115771062 even though
int(1115771062) < int(9134099894) makes it a skipped sub-manager, so a
checkpoint is emitted for a skipped entry. -/
theorem C1_counterexample :
    st1.submanager_cursor = some "9134099894" ∧
    pyInt (some "1115771062") = .ok 1115771062 ∧
    pyInt (some "9134099894") = .ok 9134099894 ∧
    (1115771062 : Int) < 9134099894 ∧
    (ColumnsConn.update st1 env1 ⟨2025, 1, 1⟩).1.head? =
      some (Op.checkpoint { submanager_cursor := some "1115771062" }) := by
  decide

/-- C2 counterexample: in the keywords connector a managed account whose
results arrive out of date order gets no frontier treatment: the run
emits the row dated before the first date (instead of dropping it) and
emits no checkpoint carrying any column_data_cursor at all (instead of
checkpointing the first date immediately). -/
theorem C2_counterexample :
    get_date_diff ⟨2024, 1, 10⟩ ⟨2024, 1, 5⟩ < 0 ∧
    (KeywordsConn.update ⟨"7"⟩ {} env2 ⟨2025, 1, 1⟩).1 =
      [Op.upsert "custom_column_metrics" (.metric mA),
       Op.upsert "custom_column_metrics" (.metric mB),
       Op.checkpoint { iterative_sync_cursor := some ⟨2025, 1, 1⟩ }] ∧
    (∀ op ∈ (KeywordsConn.update ⟨"7"⟩ {} env2 ⟨2025, 1, 1⟩).1,
      ckColumnDataCursor op = some none ∨ ckColumnDataCursor op = none) := by
  refine ⟨by decide, by decide, ?_⟩
  decide

/-- C6: when the keywords driver finishes the sub-manager recorded in the
resume state and enters the fresh sub-manager 10, it re-reads
managed_account_cursor = 500 from the persisted state instead of
defaulting to the smallest managed-account id of the fresh sub-manager,
so managed account 100 of sub-manager 10 is skipped silently: the whole
run emits output only for account 700 and no operation mentions account
100. -/
theorem C6_stale_cursor :
    (KeywordsConn.update ⟨"2,10"⟩ st6 env6 ⟨2025, 3, 1⟩).1 =
      [Op.upsert "custom_column_metrics" (.metric m700),
       Op.checkpoint { iterative_sync_cursor := some ⟨2025, 3, 1⟩ }] ∧
    (∀ op ∈ (KeywordsConn.update ⟨"2,10"⟩ st6 env6 ⟨2025, 3, 1⟩).1,
      metricCustomer op ≠ some (some "100")) := by
  refine ⟨by decide, ?_⟩
  decide

/-- C7 counterexample: in the columns connector the managed-account list
of sub-manager 1115771062 is the raw customer-client list, which contains
the other configured sub-manager id 9134099894; the sorted list the driver
iterates over contains it, and the run even yields a position checkpoint
treating 9134099894 as a managed account of 1115771062. -/
theorem C7_counterexample :
    some "9134099894" ∈ ColumnsConn.managedAccountsOf env7 "1115771062" ∧
    pySortByInt (ColumnsConn.managedAccountsOf env7 "1115771062") =
      .ok [some "77", some "9134099894"] ∧
    Op.checkpoint
        { submanager_cursor := some "1115771062",
          managed_account_cursor := some "9134099894" } ∈
      (ColumnsConn.update {} env7 ⟨2025, 1, 1⟩).1 := by
  decide

/-- C8 counterexample: the paginator hands the columns driver two pages
for managed account 8, but the driver reads only column_data[0]: the run
upserts the value of the first page's row and never upserts the value of
the second page's row, so the concatenation of all pages is not what the
driver consumes. -/
theorem C8_counterexample :
    (∀ cf sd, env8.columnData (some "8") cf sd = [pgX, pgY]) ∧
    Op.upsert "custom_column_values" (.columnValue v1row) ∈
      (ColumnsConn.update {} env8 ⟨2025, 1, 1⟩).1 ∧
    Op.upsert "custom_column_values" (.columnValue v2row) ∉
      (ColumnsConn.update {} env8 ⟨2025, 1, 1⟩).1 := by
  refine ⟨fun _ _ => rfl, by decide, by decide⟩

/-- C9 counterexample: a page whose single row carries two custom column
values against one header is not rejected as a data error: normalization
silently truncates the zip and emits exactly one record (not the two the
N x K contract would give, and no failure). -/
theorem C9_counterexample :
    pgMis.customColumnHeaders.length = 1 ∧
    (∀ r ∈ pgMis.results, r.customColumns.length = 2) ∧
    SA360.pageRecords (some "9") pgMis =
      [{ column_id := "h1", value := some "1", date := ⟨2024, 5, 1⟩,
         campaign_id := "c", customer_id := some "9", keyword_text := "",
         keyword_match_type := "", campaign_name := "", account_name := "",
         currency_code := "", clicks := "0", impressions := "0",
         cost := "0" }] := by
  decide

/-- C1 (amended): in the keywords connector both skip tests precede any
yield, so a skipped sub-manager or managed account contributes no
operations at all; in the columns connector the entry/position checkpoint
is yielded before the skip test, so a skipped entry still contributes
exactly that one checkpoint positioned at its id. -/
theorem C1_skip_yields :
    (∀ (state : StateDict) (env : Env) (subs : List String)
        (cdc isc : Option Date) (subCursor : String) (mac : Option String)
        (account : String) (ai ci : Int),
        pyInt (some account) = .ok ai → pyInt (some subCursor) = .ok ci →
        ai < ci →
        KeywordsConn.subStep state env subs cdc isc subCursor mac account =
          ([], .ok mac)) ∧
    (∀ (env : Env) (cdc isc : Option Date) (account : String)
        (columns : List ColumnDef) (mac a : Option String) (ai mi : Int),
        pyInt a = .ok ai → pyInt mac = .ok mi → ai < mi →
        KeywordsConn.acctBody env cdc isc account columns mac a = ([], none)) ∧
    (∀ (state : StateDict) (env : Env) (cdc isc : Option Date)
        (subCursor : String) (mac : Option String) (account : String)
        (ai ci : Int),
        pyInt (some account) = .ok ai → pyInt (some subCursor) = .ok ci →
        ai < ci →
        ColumnsConn.subStep state env cdc isc subCursor mac account =
          ([ColumnsConn.entryCheckpoint cdc isc mac account], .ok mac)) ∧
    (∀ (env : Env) (cdc isc : Option Date) (account : String)
        (columns : List ColumnDef) (mac a : Option String) (ai mi : Int),
        pyInt a = .ok ai → pyInt mac = .ok mi → ai < mi →
        ColumnsConn.acctStep env cdc isc account columns mac a =
          ([ColumnsConn.positionCheckpoint cdc isc account a], none)) := by
  refine ⟨?_, ?_, ?_, ?_⟩
  · intro state env subs cdc isc subCursor mac account ai ci h1 h2 h3
    simp [KeywordsConn.subStep, h1, h2, h3]
  · intro env cdc isc account columns mac a ai mi h1 h2 h3
    simp [KeywordsConn.acctBody, h1, h2, h3]
  · intro state env cdc isc subCursor mac account ai ci h1 h2 h3
    simp [ColumnsConn.subStep, h1, h2, h3]
  · intro env cdc isc account columns mac a ai mi h1 h2 h3
    simp [ColumnsConn.acctStep, h1, h2, h3]

/-- Witness for C1_skip_yields at concrete skipped ids. -/
theorem C1_skip_yields_witness :
    KeywordsConn.subStep {} envEmpty ["5"] none none "5" none "2" =
      ([], .ok none) ∧
    KeywordsConn.acctBody envEmpty none none "5" [] (some "9") (some "2") =
      ([], none) ∧
    ColumnsConn.subStep {} envEmpty none none "5" none "2" =
      ([ColumnsConn.entryCheckpoint none none none "2"], .ok none) ∧
    ColumnsConn.acctStep envEmpty none none "5" [] (some "9") (some "2") =
      ([ColumnsConn.positionCheckpoint none none "5" (some "2")], none) :=
  ⟨C1_skip_yields.1 {} envEmpty ["5"] none none "5" none "2" 2 5
      (by decide) (by decide) (by decide),
   C1_skip_yields.2.1 envEmpty none none "5" [] (some "9") (some "2") 2 9
      (by decide) (by decide) (by decide),
   C1_skip_yields.2.2.1 {} envEmpty none none "5" none "2" 2 5
      (by decide) (by decide) (by decide),
   C1_skip_yields.2.2.2 envEmpty none none "5" [] (some "9") (some "2") 2 9
      (by decide) (by decide) (by decide)⟩

/-- A custom_column_values upsert found among the value upserts of one
result row carries the date of that row. -/
theorem valueUpserts_date_eq {a : Option String} {hs : List Header}
    {i : ResultRow} {v : ColumnValueRow}
    (h : Op.upsert "custom_column_values" (.columnValue v) ∈
      ColumnsConn.valueUpserts a hs i) :
    v.date = i.date := by
  simp only [ColumnsConn.valueUpserts, List.mem_map] at h
  obtain ⟨p, -, hp⟩ := h
  injection hp with ht hd
  injection hd with hv
  rw [← hv]

/-- C2 (amended, the columns connector): the first row of a managed
account establishes the frontier and a checkpoint carrying its date is
yielded before anything else; a later row dated before the frontier
contributes nothing (dropped, not emitted); a row dated more than 5 days
after the frontier yields a fresh checkpoint carrying its date, is still
emitted, and becomes the new frontier; and globally no value upsert the
frontier loop emits is dated before the frontier it started from. -/
theorem C2_frontier :
    (∀ (account : String) (a : Option String) (isc : Option Date)
        (hs : List Header) (i : ResultRow) (rest : List ResultRow),
        ColumnsConn.processResults account a isc hs none (i :: rest) =
          Op.checkpoint
            { submanager_cursor := some account, managed_account_cursor := a,
              iterative_sync_cursor := isc, column_data_cursor := some i.date } ::
          ColumnsConn.valueUpserts a hs i ++
          ColumnsConn.processResults account a isc hs (some i.date) rest) ∧
    (∀ (account : String) (a : Option String) (isc : Option Date)
        (hs : List Header) (f : Date) (i : ResultRow) (rest : List ResultRow),
        get_date_diff f i.date < 0 →
        ColumnsConn.processResults account a isc hs (some f) (i :: rest) =
          ColumnsConn.processResults account a isc hs (some f) rest) ∧
    (∀ (account : String) (a : Option String) (isc : Option Date)
        (hs : List Header) (f : Date) (i : ResultRow) (rest : List ResultRow),
        5 < get_date_diff f i.date →
        ColumnsConn.processResults account a isc hs (some f) (i :: rest) =
          Op.checkpoint
            { submanager_cursor := some account, managed_account_cursor := a,
              iterative_sync_cursor := isc, column_data_cursor := some i.date } ::
          ColumnsConn.valueUpserts a hs i ++
          ColumnsConn.processResults account a isc hs (some i.date) rest) ∧
    (∀ (account : String) (a : Option String) (isc : Option Date)
        (hs : List Header) (f : Date) (rows : List ResultRow)
        (v : ColumnValueRow),
        Op.upsert "custom_column_values" (.columnValue v) ∈
          ColumnsConn.processResults account a isc hs (some f) rows →
        0 ≤ get_date_diff f v.date) := by
  refine ⟨?_, ?_, ?_, ?_⟩
  · intro account a isc hs i rest
    simp [ColumnsConn.processResults]
  · intro account a isc hs f i rest h
    simp [ColumnsConn.processResults, h]
  · intro account a isc hs f i rest h
    have h0 : ¬ get_date_diff f i.date < 0 := by omega
    simp [ColumnsConn.processResults, h, h0]
  · intro account a isc hs f rows
    induction rows generalizing f with
    | nil =>
      intro v hv
      simp [ColumnsConn.processResults] at hv
    | cons i rest ih =>
      intro v hv
      simp only [ColumnsConn.processResults] at hv
      by_cases h1 : get_date_diff f i.date < 0
      · rw [if_pos h1] at hv
        exact ih f v hv
      · rw [if_neg h1] at hv
        by_cases h2 : 5 < get_date_diff f i.date
        · rw [if_pos h2] at hv
          rcases List.mem_cons.mp hv with h | h
          · simp at h
          · rcases List.mem_append.mp h with h | h
            · have hd := valueUpserts_date_eq h
              rw [hd]
              unfold get_date_diff at h2 ⊢
              omega
            · have h3 := ih i.date v h
              unfold get_date_diff at h2 h3 ⊢
              omega
        · rw [if_neg h2] at hv
          rcases List.mem_append.mp hv with h | h
          · have hd := valueUpserts_date_eq h
            rw [hd]
            unfold get_date_diff at h1 ⊢
            omega
          · exact ih f v h

/-- Witness for C2_frontier: first-row checkpoint, a dropped
before-frontier row, a frontier advance by 9 days, and the no-predating
invariant, all at concrete dates. -/
theorem C2_frontier_witness :
    (ColumnsConn.processResults "1" (some "2") none [⟨"h"⟩] none [rA] =
      Op.checkpoint
        { submanager_cursor := some "1", managed_account_cursor := some "2",
          iterative_sync_cursor := none, column_data_cursor := some rA.date } ::
      ColumnsConn.valueUpserts (some "2") [⟨"h"⟩] rA ++
      ColumnsConn.processResults "1" (some "2") none [⟨"h"⟩] (some rA.date) []) ∧
    (ColumnsConn.processResults "1" (some "2") none [⟨"h"⟩]
        (some ⟨2024, 1, 10⟩) [rB] =
      ColumnsConn.processResults "1" (some "2") none [⟨"h"⟩]
        (some ⟨2024, 1, 10⟩) []) ∧
    (ColumnsConn.processResults "1" (some "2") none [⟨"h"⟩]
        (some ⟨2024, 1, 1⟩) [rA] =
      Op.checkpoint
        { submanager_cursor := some "1", managed_account_cursor := some "2",
          iterative_sync_cursor := none, column_data_cursor := some rA.date } ::
      ColumnsConn.valueUpserts (some "2") [⟨"h"⟩] rA ++
      ColumnsConn.processResults "1" (some "2") none [⟨"h"⟩]
        (some rA.date) []) ∧
    (0 ≤ get_date_diff ⟨2024, 1, 1⟩
      ({ column_id := "h", value := some "5", date := ⟨2024, 1, 10⟩,
         campaign_id := "cA", customer_id := some "2" } : ColumnValueRow).date) :=
  ⟨C2_frontier.1 "1" (some "2") none [⟨"h"⟩] rA [],
   C2_frontier.2.1 "1" (some "2") none [⟨"h"⟩] ⟨2024, 1, 10⟩ rB [] (by decide),
   C2_frontier.2.2.1 "1" (some "2") none [⟨"h"⟩] ⟨2024, 1, 1⟩ rA [] (by decide),
   C2_frontier.2.2.2 "1" (some "2") none [⟨"h"⟩] ⟨2024, 1, 1⟩ [rA]
     { column_id := "h", value := some "5", date := ⟨2024, 1, 10⟩,
       campaign_id := "cA", customer_id := some "2" } (by decide)⟩

/-- Membership in a stable keyed insertion. -/
theorem mem_insertByKey {q p : Int × α} {l : List (Int × α)} :
    q ∈ insertByKey p l ↔ q = p ∨ q ∈ l := by
  induction l with
  | nil => simp [insertByKey]
  | cons r rs ih =>
    simp only [insertByKey]
    by_cases h : p.1 ≤ r.1
    · simp [h]
    · simp only [h, if_false, List.mem_cons, ih]
      tauto

/-- The keyed insertion sort permutes membership. -/
theorem mem_sortPairs {q : Int × α} {l : List (Int × α)} :
    q ∈ sortPairs l ↔ q ∈ l := by
  induction l with
  | nil => simp [sortPairs]
  | cons p ps ih => simp [sortPairs, mem_insertByKey, ih]

/-- Every element of a successfully sorted list was in the input list. -/
theorem pySortByInt_mem {xs ys : List (Option String)}
    (h : pySortByInt xs = .ok ys) {y : Option String} (hy : y ∈ ys) :
    y ∈ xs := by
  unfold pySortByInt at h
  cases hks : mapPy pyInt xs with
  | err e => rw [hks] at h; simp at h
  | ok ks =>
    rw [hks] at h
    injection h with h2
    rw [← h2] at hy
    obtain ⟨p, hp, hpy⟩ := List.mem_map.mp hy
    have hpz : p ∈ ks.zip xs := mem_sortPairs.mp hp
    rw [← hpy]
    exact (List.of_mem_zip hpz).2

/-- C7 (amended): in the keywords connector the managed-account list of a
sub-manager never contains an id that is itself a configured sub-manager,
and neither does its numerically sorted version the driver iterates over. -/
theorem C7_filter :
    ∀ (subs : List String) (env : Env) (account : String) (x : String),
      x ∈ subs →
      (some x ∉ KeywordsConn.managedAccountsOf subs env account) ∧
      (∀ sorted, pySortByInt (KeywordsConn.managedAccountsOf subs env account) =
          .ok sorted → some x ∉ sorted) := by
  intro subs env account x hx
  have hnot : some x ∉ KeywordsConn.managedAccountsOf subs env account := by
    intro hmem
    have hp := List.of_mem_filter hmem
    simp only [Bool.not_eq_true'] at hp
    simp at hp
    exact hp hx
  refine ⟨hnot, ?_⟩
  intro sorted hs hmem
  exact hnot (pySortByInt_mem hs hmem)

/-- Witness for C7_filter: the configured sub-manager id 7 is absent from
the managed accounts of account 7 in a concrete Env whose customer
clients for 7 are 7 and 8. -/
theorem C7_filter_witness :
    (some "7" ∉ KeywordsConn.managedAccountsOf ["7"] env1 "9134099894") ∧
    (∀ sorted,
      pySortByInt (KeywordsConn.managedAccountsOf ["7"] env1 "9134099894") =
        .ok sorted → some "7" ∉ sorted) :=
  C7_filter ["7"] env1 "9134099894" "7" (by decide)

/-- Flattened length of the per-row records over a row list whose rows all
carry exactly as many custom column values as there are headers. -/
theorem rowRecords_flatten_length (cid : Option String) (hs : List Header)
    (K : Nat) (hK : hs.length = K) :
    ∀ (rs : List ResultRow), (∀ r ∈ rs, r.customColumns.length = K) →
      ((rs.map (SA360.rowRecords cid hs)).flatten).length = rs.length * K := by
  intro rs
  induction rs with
  | nil => intro _; simp
  | cons r rest ih =>
    intro h
    simp only [List.map_cons, List.flatten_cons, List.length_append,
      List.length_cons]
    rw [ih (fun x hx => h x (List.mem_cons_of_mem _ hx))]
    have hr : (SA360.rowRecords cid hs r).length = K := by
      unfold SA360.rowRecords
      rw [List.length_map, List.length_zip, h r (List.mem_cons_self r rest), hK]
      exact Nat.min_self K
    rw [hr]
    ring

/-- C9 (amended): when every row of a page carries exactly K custom column
values and the page has K headers, normalization emits exactly N * K
records for N rows, and the j-th record of a row pairs the j-th value
with the j-th header; nothing fails on a length mismatch (see the
counterexample), the zip silently truncates instead. -/
theorem C9_normalize :
    ∀ (cid : Option String) (page : ApiPage) (K : Nat),
      page.customColumnHeaders.length = K →
      (∀ r ∈ page.results, r.customColumns.length = K) →
      (SA360.pageRecords cid page).length = page.results.length * K ∧
      (∀ r ∈ page.results, ∀ (j : Nat) (v : CustomColumnValue) (h : Header),
        r.customColumns[j]? = some v →
        page.customColumnHeaders[j]? = some h →
        (SA360.rowRecords cid page.customColumnHeaders r)[j]? =
          some (SA360.metricOf cid r (v, h))) := by
  intro cid page K hK hrows
  constructor
  · exact rowRecords_flatten_length cid page.customColumnHeaders K hK
      page.results hrows
  · intro r _ j v h hv hh
    unfold SA360.rowRecords
    rw [List.getElem?_map]
    have hz : (r.customColumns.zip page.customColumnHeaders)[j]? = some (v, h) := by
      simp only [List.getElem?_zip_eq_some]
      exact ⟨hv, hh⟩
    rw [hz]
    rfl

/-- Witness for C9_normalize on a concrete 2-row, 2-column page. -/
theorem C9_normalize_witness :
    (SA360.pageRecords (some "9") pgOk).length = pgOk.results.length * 2 ∧
    (∀ r ∈ pgOk.results, ∀ (j : Nat) (v : CustomColumnValue) (h : Header),
      r.customColumns[j]? = some v →
      pgOk.customColumnHeaders[j]? = some h →
      (SA360.rowRecords (some "9") pgOk.customColumnHeaders r)[j]? =
        some (SA360.metricOf (some "9") r (v, h))) :=
  C9_normalize (some "9") pgOk 2 (by decide) (by decide)

/-- One unfolding step of the page loop. -/
theorem searchPages_succ (srv : SA360.PageServer) (fuel : Nat)
    (tok : Option String) :
    SA360.searchPages srv (fuel + 1) tok =
      ({ pageSize := 5000, pageToken := tok }, SA360.srvPage srv tok) ::
        (match (SA360.srvPage srv tok).nextPageToken with
         | none => []
         | some t =>
           if t.data.isEmpty then [] else SA360.searchPages srv fuel (some t)) :=
  rfl

/-- Every request the page loop issues carries the fixed pageSize 5000. -/
theorem searchPages_pageSize (srv : SA360.PageServer) :
    ∀ (fuel : Nat) (tok : Option String) (pr : SA360.SearchRequest × ApiPage),
      pr ∈ SA360.searchPages srv fuel tok → pr.1.pageSize = 5000 := by
  intro fuel
  induction fuel with
  | zero =>
    intro tok pr h
    simp [SA360.searchPages] at h
  | succ n ih =>
    intro tok pr h
    rw [searchPages_succ] at h
    rcases List.mem_cons.mp h with h | h
    · subst h; rfl
    · revert h
      cases hnt : (SA360.srvPage srv tok).nextPageToken with
      | none => intro h; simp at h
      | some t =>
        intro h
        by_cases he : t.data.isEmpty = true
        · simp only [he, if_true] at h
          simp at h
        · simp only [he, if_false] at h
          exact ih (some t) pr h

/-- The first request of a nonempty page-loop run carries the token the
loop was entered with. -/
theorem searchPages_head (srv : SA360.PageServer) (fuel : Nat)
    (tok : Option String) (pr : SA360.SearchRequest × ApiPage)
    (tl : List (SA360.SearchRequest × ApiPage))
    (h : SA360.searchPages srv fuel tok = pr :: tl) :
    pr.1.pageToken = tok := by
  cases fuel with
  | zero => simp [SA360.searchPages] at h
  | succ n =>
    rw [searchPages_succ] at h
    injection h with h1 _
    rw [← h1]

/-- Every page the loop fetches hands its nextPageToken to the request
that follows it. -/
theorem searchPages_chained (srv : SA360.PageServer) :
    ∀ (fuel : Nat) (tok : Option String),
      tokensChained (SA360.searchPages srv fuel tok) := by
  intro fuel
  induction fuel with
  | zero => intro tok; simp [SA360.searchPages, tokensChained]
  | succ n ih =>
    intro tok
    rw [searchPages_succ]
    cases hnt : (SA360.srvPage srv tok).nextPageToken with
    | none => simp [tokensChained]
    | some t =>
      by_cases he : t.data.isEmpty = true
      · simp only [he, if_true]
        simp [tokensChained]
      · simp only [he, if_false]
        cases hsp : SA360.searchPages srv n (some t) with
        | nil => simp [tokensChained]
        | cons q rest =>
          have hq : q.1.pageToken = some t :=
            searchPages_head srv n (some t) q rest hsp
          refine ⟨?_, ?_⟩
          · rw [hq, hnt]
          · rw [← hsp]
            exact ih (some t)

/-- The length of an index token is the index it encodes. -/
theorem idxToken_len (i : Nat) : (SA360.idxToken i).length = i := by
  have h : (SA360.idxToken i).length = (List.replicate i 'x').length := rfl
  rw [h, List.length_replicate]

/-- A positive index token is a truthy (nonempty) string. -/
theorem idxToken_nonempty (i : Nat) (h : 0 < i) :
    ((SA360.idxToken i).data.isEmpty) = false := by
  obtain ⟨j, rfl⟩ : ∃ j, i = j + 1 := ⟨i - 1, by omega⟩
  rfl

/-- Walking the chunk server from page index i with exactly enough fuel
fetches pages i, i+1, ..., up to the last chunk, each once and in
order. -/
theorem searchPages_chunkWalk (chunks : List (List ResultRow))
    (hs : List Header) :
    ∀ (n i : Nat), 0 < n → 0 < i → i + n = chunks.length →
      SA360.searchPages (SA360.chunkServer chunks hs) (n + 1)
          (some (SA360.idxToken i)) =
        (List.range' i n).map (fun j =>
          ({ pageSize := 5000, pageToken := some (SA360.idxToken j) },
           SA360.pageAt chunks hs j)) := by
  intro n
  induction n with
  | zero => intro i h0; omega
  | succ n ih =>
    intro i _ hi hlen
    have hpage : SA360.srvPage (SA360.chunkServer chunks hs)
        (some (SA360.idxToken i)) = SA360.pageAt chunks hs i := by
      show SA360.pageAt chunks hs (SA360.idxToken i).length =
        SA360.pageAt chunks hs i
      rw [idxToken_len]
    rw [searchPages_succ, hpage]
    rcases Nat.eq_zero_or_pos n with rfl | hn
    · have hnt : (SA360.pageAt chunks hs i).nextPageToken = none := by
        simp only [SA360.pageAt]
        rw [if_neg (by omega)]
      rw [hnt]
      simp [List.range']
    · have hlt : i + 1 < chunks.length := by omega
      have hnt : (SA360.pageAt chunks hs i).nextPageToken =
          some (SA360.idxToken (i + 1)) := by
        simp only [SA360.pageAt]
        rw [if_pos hlt]
      have hne : ((SA360.idxToken (i + 1)).data.isEmpty) = false :=
        idxToken_nonempty (i + 1) (by omega)
      rw [hnt]
      simp only [hne, Bool.false_eq_true, if_false]
      rw [ih (i + 1) hn (by omega) (by omega)]
      rw [List.range'_succ i n 1, List.map_cons]

/-- Reading every index of a chunk list with getD reproduces the list. -/
theorem map_getD_range (l : List (List ResultRow)) :
    (List.range l.length).map (fun j => l.getD j []) = l := by
  induction l with
  | nil => rfl
  | cons a t ih =>
    rw [List.length_cons, List.range_succ_eq_map, List.map_cons, List.map_map]
    have he : ((fun j => (a :: t).getD j []) ∘ Nat.succ) =
        (fun j => t.getD j []) := by
      funext j; rfl
    rw [he, ih]
    rfl

/-- Fetching against a server that paginates a chunk list, with enough
fuel, recovers exactly the concatenation of all chunks: no page is
repeated, none is lost, and the loop stops at the token-less last page. -/
theorem fetch_chunkServer (chunks : List (List ResultRow)) (hs : List Header) :
    ((SA360.get_custom_column_data (SA360.chunkServer chunks hs)
        (chunks.length + 1)).map (fun pr => pr.2.results)).flatten =
      chunks.flatten := by
  unfold SA360.get_custom_column_data
  cases chunks with
  | nil => rfl
  | cons c cs =>
    cases cs with
    | nil => rfl
    | cons c2 cs2 =>
      simp only [List.length_cons]
      rw [searchPages_succ]
      have hfirst : SA360.srvPage (SA360.chunkServer (c :: c2 :: cs2) hs) none =
          SA360.pageAt (c :: c2 :: cs2) hs 0 := rfl
      have hnt : (SA360.pageAt (c :: c2 :: cs2) hs 0).nextPageToken =
          some (SA360.idxToken 1) := by
        simp only [SA360.pageAt]
        rw [if_pos (by simp)]
      have hne : ((SA360.idxToken 1).data.isEmpty) = false :=
        idxToken_nonempty 1 (by omega)
      rw [hfirst, hnt]
      simp only [hne, Bool.false_eq_true, if_false]
      rw [searchPages_chunkWalk (c :: c2 :: cs2) hs (cs2.length + 1) 1
        (by omega) (by omega) (by simp; omega)]
      simp only [List.map_cons, List.map_map, List.flatten_cons]
      have hres : ((fun pr => pr.2.results) ∘ fun j =>
          (({ pageSize := 5000, pageToken := some (SA360.idxToken j) } :
              SA360.SearchRequest),
           SA360.pageAt (c :: c2 :: cs2) hs j)) =
          (fun j => (c :: c2 :: cs2).getD j []) := by
        funext j; rfl
      rw [hres]
      have htail : (List.range' 1 (cs2.length + 1)).map
          (fun j => (c :: c2 :: cs2).getD j []) = c2 :: cs2 := by
        rw [List.range'_eq_map_range 1 (cs2.length + 1), List.map_map]
        have he2 : ((fun j => (c :: c2 :: cs2).getD j []) ∘ (1 + ·)) =
            (fun k => (c2 :: cs2).getD k []) := by
          funext k
          show (c :: c2 :: cs2).getD (1 + k) [] = (c2 :: cs2).getD k []
          rw [Nat.add_comm]
          simp [List.getD_cons_succ]
        rw [he2]
        have h0 := map_getD_range (c2 :: cs2)
        simpa using h0
      rw [htail]
      rfl

/-- C8 (amended): every request of the page loop carries pageSize 5000;
each fetched page hands its nextPageToken to the following request; and
against a server that paginates any chunked full result set, the loop
fetches every page exactly once, stops at the token-less page, and the
concatenation of all fetched pages' results is the full result set. (The
keywords connector consumes every fetched page by construction of
generate_custom_column_rows; the columns driver does not, see the
counterexample.) -/
theorem C8_pagination :
    (∀ (srv : SA360.PageServer) (fuel : Nat) (tok : Option String)
        (pr : SA360.SearchRequest × ApiPage),
        pr ∈ SA360.searchPages srv fuel tok → pr.1.pageSize = 5000) ∧
    (∀ (srv : SA360.PageServer) (fuel : Nat) (tok : Option String),
        tokensChained (SA360.searchPages srv fuel tok)) ∧
    (∀ (chunks : List (List ResultRow)) (hs : List Header),
        ((SA360.get_custom_column_data (SA360.chunkServer chunks hs)
            (chunks.length + 1)).map (fun pr => pr.2.results)).flatten =
          chunks.flatten) :=
  ⟨searchPages_pageSize, searchPages_chained, fetch_chunkServer⟩

/-- Witness for C8_pagination: the first request of a concrete two-chunk
fetch has pageSize 5000. -/
theorem C8_pagination_witness :
    (({ pageSize := 5000, pageToken := none } : SA360.SearchRequest),
      SA360.pageAt [[rA], [rB]] ([] : List Header) 0).1.pageSize = 5000 :=
  C8_pagination.1 (SA360.chunkServer [[rA], [rB]] []) 3 none
    ({ pageSize := 5000, pageToken := none },
      SA360.pageAt [[rA], [rB]] ([] : List Header) 0)
    (by decide)
